import Mathlib

/-!
Verification development for the TNM PET-CT staging pipeline.

The Python source is embedded shallowly:
* JSON values (the currency of every agent) become the inductive `Json`;
  Python dictionaries become association lists `Dict := List (String × Json)`
  with first-occurrence lookup and in-place update, matching `dict` semantics.
* `src/utils.py` normalization becomes `normalizeEvidenceField` /
  `normalizeAgentResponse`.
* The Pydantic schemas of `src/models.py` become executable Boolean
  validators (`validateTStageResult`, ...).
* The retry loops of `src/agents/base_agent.py` (`call_llm`) and
  `src/agents/t_agent.py` (`TAgent.analyze`) become fuel-style recursive
  functions parameterized by a transport oracle (the Mistral client is an
  external collaborator) and a JSON-parse oracle (the Python `json.loads`).
  They additionally return the number of outbound LLM invocations consumed
  and the chronological list of `time.sleep` delays, so retry-policy claims
  can be stated about observable behaviour.
* The LangGraph workflow of `src/workflow.py` becomes explicit state
  passing over `WorkflowState` with the agents abstracted as outcome
  oracles (`AgentBehaviors`): the graph topology is sequential
  (t -> n -> m -> conditional join -> compiler), exactly as built in
  `TNMWorkflow._build_graph`.
-/

/-- JSON values as produced by `json.loads` on agent responses.
Numbers are modelled as rationals (Python does not round-trip anything the
claims exercise through floats). -/
inductive Json where
  | null : Json
  | bool : Bool → Json
  | num : ℚ → Json
  | str : String → Json
  | arr : List Json → Json
  | obj : List (String × Json) → Json

/-- A Python dictionary with string keys, as an insertion-ordered
association list (Python dicts keep insertion order; lookup finds the
first occurrence). -/
abbrev Dict := List (String × Json)

/-- Python truthiness (`if value:`) for the JSON fragment: `None`, `False`,
`0`, `""`, `[]` and `{}` are falsy, everything else truthy. -/
def pyTruthy : Json → Bool
  | Json.null => false
  | Json.bool b => b
  | Json.num q => !(q == 0)
  | Json.str s => !(s == "")
  | Json.arr xs => !xs.isEmpty
  | Json.obj fs => !fs.isEmpty

mutual

/-- Python `repr` for the JSON fragment (element rendering used by
`str(list)`); an approximation of Cthe Python output that is exact on the
strings, booleans, `None` and integers the pipeline exercises. -/
def pyRepr : Json → String
  | Json.null => "None"
  | Json.bool true => "True"
  | Json.bool false => "False"
  | Json.num q => toString q
  | Json.str s => "\x27" ++ s ++ "\x27"
  | Json.arr xs => "[" ++ String.intercalate ", " (pyReprList xs) ++ "]"
  | Json.obj fs => "\x7b" ++ String.intercalate ", " (pyReprFields fs) ++ "\x7d"

/-- Renders the elements of a JSON array, in order. -/
def pyReprList : List Json → List String
  | [] => []
  | x :: xs => pyRepr x :: pyReprList xs

/-- Renders the fields of a JSON object, in order. -/
def pyReprFields : List (String × Json) → List String
  | [] => []
  | (k, v) :: fs => ("\x27" ++ k ++ "\x27: " ++ pyRepr v) :: pyReprFields fs

end

/-- Python `str` for the JSON fragment: strings print bare, containers and
scalars print as their `repr`. This is what
`" ".join(str(item) for item in value if item)` applies to each item. -/
def pyStr : Json → String
  | Json.str s => s
  | j => pyRepr j

/-- First-occurrence lookup in a Python dict (`data[k]` / `data.get(k)`). -/
def getKey : Dict → String → Option Json
  | [], _ => none
  | (k', v) :: rest, k => if k' = k then some v else getKey rest k

/-- Python dict assignment `data[k] = v`: replaces the first occurrence of
the key, appends when the key is absent. -/
def setKey : Dict → String → Json → Dict
  | [], k, v => [(k, v)]
  | (k', v') :: rest, k, v =>
      if k' = k then (k, v) :: rest else (k', v') :: setKey rest k v

/-- Whether a key occurs in a dict (`k in data`). -/
def hasKey (d : Dict) (k : String) : Bool :=
  (getKey d k).isSome

/-- The join `" ".join(str(item) for item in value if item)` from
`normalize_evidence_field` (src/utils.py line 30): falsy items are
dropped, the rest stringified and joined with single spaces, order kept. -/
def joinItems (items : List Json) : String :=
  String.intercalate " " ((items.filter pyTruthy).map pyStr)

/-- `normalize_evidence_field` (src/utils.py lines 12-38): when the field
is present, a list value is replaced by the space-join of its truthy
items, a `None` value by the empty string; any other value, and a dict
without the field, is left untouched. -/
def normalizeEvidenceField (fieldName : String) (data : Dict) : Dict :=
  match getKey data fieldName with
  | some (Json.arr items) => setKey data fieldName (Json.str (joinItems items))
  | some Json.null => setKey data fieldName (Json.str "")
  | _ => data

/-- The `if key in data and isinstance(data[key], dict)` sub-object pass of
`normalize_agent_response` (src/utils.py lines 59-64) for one nested key. -/
def normalizeSubObject (key : String) (data : Dict) : Dict :=
  match getKey data key with
  | some (Json.obj fs) =>
      setKey data key (Json.obj (normalizeEvidenceField "evidence" fs))
  | _ => data

/-- `normalize_agent_response` (src/utils.py lines 41-66): normalizes the
top-level `evidence` field, then the `evidence` fields of the nested
`tumor`, `nodes` and `metastasis` sub-objects when they are dicts. -/
def normalizeAgentResponse (data : Dict) : Dict :=
  normalizeSubObject "metastasis"
    (normalizeSubObject "nodes"
      (normalizeSubObject "tumor"
        (normalizeEvidenceField "evidence" data)))

/-! ## Schema validators (src/models.py)

Pydantic v2 validation of the result models, as executable Boolean
predicates over parsed JSON dicts. Extra keys are ignored (the Pydantic
default). Required `str` fields demand a JSON string (v2 does not coerce
numbers or `None` to `str`); `Optional` fields also accept `null` or
absence; fields with a non-`None` default accept absence but not `null`;
`int` fields accept any integral number (v2 lax mode accepts `2.0`,
rejects `2.5` and booleans). -/

/-- A required `str` field: present and a JSON string. -/
def reqStr (d : Dict) (k : String) : Bool :=
  match getKey d k with
  | some (Json.str _) => true
  | _ => false

/-- An `Optional[str]` field: absent, `null`, or a string. -/
def optStr (d : Dict) (k : String) : Bool :=
  match getKey d k with
  | none => true
  | some Json.null => true
  | some (Json.str _) => true
  | _ => false

/-- A `str` field with a string default: absent or a string (`null` is
rejected because the annotation is not `Optional`). -/
def defStr (d : Dict) (k : String) : Bool :=
  match getKey d k with
  | none => true
  | some (Json.str _) => true
  | _ => false

/-- An `Optional[float]` field: absent, `null`, or a number. -/
def optNum (d : Dict) (k : String) : Bool :=
  match getKey d k with
  | none => true
  | some Json.null => true
  | some (Json.num _) => true
  | _ => false

/-- The `Optional[Literal["left", "right"]]` laterality field of
`TStageResult` (src/models.py lines 16-19). -/
def optLeftRight (d : Dict) (k : String) : Bool :=
  match getKey d k with
  | none => true
  | some Json.null => true
  | some (Json.str s) => s == "left" || s == "right"
  | _ => false

/-- An `Optional[List[str]]` field with `default_factory=list`: absent,
`null`, or a list of strings. -/
def optStrList (d : Dict) (k : String) : Bool :=
  match getKey d k with
  | none => true
  | some Json.null => true
  | some (Json.arr xs) =>
      xs.all fun x => match x with | Json.str _ => true | _ => false
  | _ => false

/-- An `int` field with default `0`: absent or an integral number
(`null` rejected, the annotation is plain `int`). -/
def intField (d : Dict) (k : String) : Bool :=
  match getKey d k with
  | none => true
  | some (Json.num q) => decide (q.den = 1)
  | _ => false

/-- `TStageResult` (src/models.py lines 5-32): required `stage` and
`evidence` strings, optional size/location/laterality/confidence, optional
string lists `invasion` and `separate_nodules`. -/
def validateTStageResult (d : Dict) : Bool :=
  reqStr d "stage" && optNum d "tumor_size_mm" && optStr d "location" &&
  optLeftRight d "laterality" && optStrList d "invasion" &&
  optStrList d "separate_nodules" && reqStr d "evidence" &&
  optStr d "confidence"

/-- `LymphNodeInvolvement` (src/models.py lines 35-45): required station,
a laterality restricted to ipsilateral/contralateral/midline, and a
description. -/
def validateLymphNode (d : Dict) : Bool :=
  reqStr d "station" &&
  (match getKey d "laterality" with
   | some (Json.str s) =>
       s == "ipsilateral" || s == "contralateral" || s == "midline"
   | _ => false) &&
  reqStr d "description"

/-- A `List[Model]` field with `default_factory=list`: absent or a list
whose every element is a dict validating against the nested model. -/
def modelList (d : Dict) (k : String) (valid : Dict → Bool) : Bool :=
  match getKey d k with
  | none => true
  | some (Json.arr xs) =>
      xs.all fun x => match x with | Json.obj f => valid f | _ => false
  | _ => false

/-- `NStageResult` (src/models.py lines 48-62): required `stage` and
`evidence` strings, a list of lymph-node involvements, optional
confidence. -/
def validateNStageResult (d : Dict) : Bool :=
  reqStr d "stage" && modelList d "involved_nodes" validateLymphNode &&
  reqStr d "evidence" && optStr d "confidence"

/-- `MetastasisSite` (src/models.py lines 65-72): three required
strings. -/
def validateMetastasisSite (d : Dict) : Bool :=
  reqStr d "organ_system" && reqStr d "location" && reqStr d "description"

/-- `MStageResult` (src/models.py lines 75-93): required `stage` and
`evidence` strings, a list of metastasis sites, an `int`
`organ_systems_count` defaulting to 0, optional confidence. Note the
model declares no non-negativity bound and no consistency check between
`organ_systems_count` and `metastasis_sites`. -/
def validateMStageResult (d : Dict) : Bool :=
  reqStr d "stage" && modelList d "metastasis_sites" validateMetastasisSite &&
  intField d "organ_systems_count" && reqStr d "evidence" &&
  optStr d "confidence"

/-- `TNMStaging` (src/models.py lines 96-116): required stage strings and
summary, the three component results embedded as validated sub-objects,
and a `clinical_stage_prefix` string defaulting to `"c"`. -/
def validateTNMStaging (d : Dict) : Bool :=
  reqStr d "tnm_stage" && reqStr d "overall_stage" &&
  (match getKey d "tumor" with
   | some (Json.obj f) => validateTStageResult f
   | _ => false) &&
  (match getKey d "nodes" with
   | some (Json.obj f) => validateNStageResult f
   | _ => false) &&
  (match getKey d "metastasis" with
   | some (Json.obj f) => validateMStageResult f
   | _ => false) &&
  reqStr d "summary" && defStr d "clinical_stage_prefix"

/-- Modelled from the spec: the recomputed number of distinct organ
systems across a list of metastasis sites ("organ-systems-count ... must
equal the number of distinct organ systems across metastasis-sites",
spec section 3). The code itself never recomputes this value; the
definition exists to compare the spec consistency requirement with the
validator. -/
def distinctOrganSystemsCount (sites : List Json) : Nat :=
  ((sites.filterMap fun s =>
      match s with
      | Json.obj f =>
          match getKey f "organ_system" with
          | some (Json.str o) => some o
          | _ => none
      | _ => none).dedup).length

/-! ## Retry configuration and the Stage Agent retry loops

`Settings` keeps the two fields of src/config.py that drive the
pipeline control flow (`max_retries` default 3, `retry_delay` default
1.0); model name, temperature and token limits do not affect it.

The Mistral client is an external collaborator: a transport oracle
`transport : Nat → Except String String` gives the outcome of the i-th
outbound `client.chat.complete` call globally (`.error msg` = the call
raised, `.ok s` = it returned response content `s`). the Python
`json.loads` is likewise an oracle `parse : String → Option Dict`
(returning `none` on `json.JSONDecodeError`; the pipeline only ever
treats dict-shaped parses as usable, non-dict JSON values would fail in
`normalize_agent_response`/`TStageResult(**...)` and are outside the
behaviours the claims exercise).

Each loop returns `(outcome, invocations, sleeps)`: the result or raised
message, the number of outbound LLM invocations consumed, and the
chronological list of `time.sleep` delays performed. -/

/-- Retry configuration from src/config.py lines 25-26, with its
defaults. -/
structure Settings where
  max_retries : Nat := 3
  retry_delay : ℚ := 1

/-- One body of the `try` in `BaseAgent.call_llm` (src/agents/base_agent.py
lines 68-81): a transport error propagates as the raised exception, a
returned but empty content raises `ValueError("Empty response from
Mistral API")`, non-empty content is returned. -/
def transportStep (transport : Nat → Except String String) (k : Nat) :
    Except String String :=
  match transport k with
  | Except.error m => Except.error m
  | Except.ok s => if s = "" then Except.error "Empty response from Mistral API" else Except.ok s

/-- The retry loop of `BaseAgent.call_llm` (src/agents/base_agent.py lines
67-89). `fuel` is the number of attempts still allowed (initially
`max_retries`), `a` the 0-indexed attempt number, `k` the next global
invocation index. On a failed attempt that is not the last
(`attempt == max_retries - 1` in the source, `fuel = 1` here) the loop
sleeps `retry_delay * (attempt + 1)` — a linear schedule — and retries;
on the last it re-raises. The `fuel = 0` base case mirrors
`range(0)` executing no attempt at all (only reachable when
`max_retries = 0`, which every claim excludes via `max_retries ≥ 1`). -/
def callLLMGo (d : ℚ) (transport : Nat → Except String String) :
    Nat → Nat → Nat → Except String String × Nat × List ℚ
  | 0, _, _ => (Except.error "Empty response from Mistral API", 0, [])
  | fuel + 1, a, k =>
    match transportStep transport k with
    | Except.ok s => (Except.ok s, 1, [])
    | Except.error m =>
      match fuel with
      | 0 => (Except.error m, 1, [])
      | fuel' + 1 =>
        let r := callLLMGo d transport (fuel' + 1) (a + 1) (k + 1)
        (r.1, r.2.1 + 1, (d * ((a : ℚ) + 1)) :: r.2.2)

/-- `BaseAgent.call_llm` with the configured retry budget, starting at
global invocation index `k`. -/
def callLLM (st : Settings) (transport : Nat → Except String String)
    (k : Nat) : Except String String × Nat × List ℚ :=
  callLLMGo st.retry_delay transport st.max_retries 0 k

/-- `model_dump()` of a validated `TStageResult`: every declared field,
taking the supplied value when present and the field default otherwise
(`None` for the optional scalars, `[]` for the two list fields). -/
def tDump (d : Dict) : Dict :=
  [("stage", (getKey d "stage").getD Json.null),
   ("tumor_size_mm", (getKey d "tumor_size_mm").getD Json.null),
   ("location", (getKey d "location").getD Json.null),
   ("laterality", (getKey d "laterality").getD Json.null),
   ("invasion", (getKey d "invasion").getD (Json.arr [])),
   ("separate_nodules", (getKey d "separate_nodules").getD (Json.arr [])),
   ("evidence", (getKey d "evidence").getD Json.null),
   ("confidence", (getKey d "confidence").getD Json.null)]

/-- The retry loop of `TAgent.analyze` (src/agents/t_agent.py lines
44-103). Each attempt calls `call_llm` (which may itself retry
internally), then parses, normalizes and validates. All three `except`
arms — JSON parse failure, validation failure, and any other exception
(e.g. a transport error propagated out of `call_llm`) — retry with an
exponential backoff sleep of `retry_delay * 2 ** attempt` while attempts
remain; on the last attempt they raise, respectively,
`ValueError("Invalid JSON response from T-Agent: ...")`,
`ValueError("T-Agent validation error: ...")`, or the original
exception. -/
def tAnalyzeGo (st : Settings) (transport : Nat → Except String String)
    (parse : String → Option Dict) :
    Nat → Nat → Nat → Except String Dict × Nat × List ℚ
  | 0, _, _ => (Except.error "Invalid JSON response from T-Agent", 0, [])
  | fuel + 1, a, k =>
    match callLLM st transport k with
    | (Except.error m, used, sl) =>
      match fuel with
      | 0 => (Except.error m, used, sl)
      | fuel' + 1 =>
        let r := tAnalyzeGo st transport parse (fuel' + 1) (a + 1) (k + used)
        (r.1, used + r.2.1, sl ++ (st.retry_delay * 2 ^ a) :: r.2.2)
    | (Except.ok s, used, sl) =>
      match parse s with
      | none =>
        match fuel with
        | 0 => (Except.error "Invalid JSON response from T-Agent", used, sl)
        | fuel' + 1 =>
          let r := tAnalyzeGo st transport parse (fuel' + 1) (a + 1) (k + used)
          (r.1, used + r.2.1, sl ++ (st.retry_delay * 2 ^ a) :: r.2.2)
      | some j =>
        let nd := normalizeAgentResponse j
        if validateTStageResult nd then
          (Except.ok (tDump nd), used, sl)
        else
          match fuel with
          | 0 => (Except.error "T-Agent validation error", used, sl)
          | fuel' + 1 =>
            let r := tAnalyzeGo st transport parse (fuel' + 1) (a + 1) (k + used)
            (r.1, used + r.2.1, sl ++ (st.retry_delay * 2 ^ a) :: r.2.2)

/-- `TAgent.analyze` under a transport oracle and a parse oracle. -/
def tAnalyze (st : Settings) (transport : Nat → Except String String)
    (parse : String → Option Dict) : Except String Dict × Nat × List ℚ :=
  tAnalyzeGo st transport parse st.max_retries 0 0

/-- The linear backoff schedule `call_llm` performs across `fuel`
consecutive failing attempts starting at attempt index `a`: a sleep of
`d * (attempt + 1)` after every failed attempt except the last. -/
def linBackoff (d : ℚ) : Nat → Nat → List ℚ
  | 0, _ => []
  | 1, _ => []
  | fuel + 2, a => (d * ((a : ℚ) + 1)) :: linBackoff d (fuel + 1) (a + 1)

/-- The exponential backoff schedule the `analyze` loop performs across
`fuel` consecutive failing attempts starting at attempt index `a`: a
sleep of `d * 2 ^ attempt` after every failed attempt except the last. -/
def expBackoff (d : ℚ) : Nat → Nat → List ℚ
  | 0, _ => []
  | 1, _ => []
  | fuel + 2, a => (d * 2 ^ a) :: expBackoff d (fuel + 1) (a + 1)

/-- The full sleep schedule of `TAgent.analyze` when every outbound call
fails at the transport level: each of the `fuel` outer attempts first
exhausts the inner inner linear schedule over `n` inner attempts, and
every outer attempt except the last then sleeps `d * 2 ^ attempt`. -/
def stageTransportSleeps (d : ℚ) (n : Nat) : Nat → Nat → List ℚ
  | 0, _ => []
  | 1, _ => linBackoff d n 0
  | fuel + 2, a =>
      linBackoff d n 0 ++ (d * 2 ^ a) :: stageTransportSleeps d n (fuel + 1) (a + 1)

/-! ## The workflow orchestrator (src/workflow.py)

The per-run agents are abstracted as outcome oracles: `t` and `m` give
the result of `TAgent.analyze` / `MAgent.analyze` on the run report
text (a validated dump on success, a raised message on failure), `n`
gives the outcome of `NAgent.analyze` as a function of the context the
orchestrator passes it (the `tumor_laterality` value, when any), and
`compiler` gives the outcome of `StagingCompiler.compile_staging` on the
three component payloads. The graph built by `TNMWorkflow._build_graph`
is a fixed sequential chain with one conditional edge, so it is embedded
as straight-line state passing. -/

/-- The outcomes of the four agents for one run. -/
structure AgentBehaviors where
  t : Except String Dict
  n : Option Json → Except String Dict
  m : Except String Dict
  compiler : Json → Json → Json → Except String Dict

/-- `TNMWorkflowState` (src/workflow.py lines 16-25), without the
read-only report text and identifiers, which no node inspects in a way
the claims depend on. -/
structure WorkflowState where
  t_result : Option Dict := none
  n_result : Option Dict := none
  m_result : Option Dict := none
  final_staging : Option Dict := none
  error : Option String := none

/-- The `initial_state` built by `TNMWorkflow.run` (src/workflow.py lines
172-181): every result slot and the error start absent. -/
def initState : WorkflowState :=
  { t_result := none, n_result := none, m_result := none,
    final_staging := none, error := none }

/-- Python truthiness of an optional result slot
(`state.get("t_result")`): present and a non-empty dict. -/
def slotTruthy : Option Dict → Bool
  | none => false
  | some d => !d.isEmpty

/-- Python truthiness of the optional error string
(`state.get("error")` / `final_state.get("error")`): present and
non-empty. -/
def errTruthy : Option String → Bool
  | none => false
  | some e => !(e == "")

/-- `TNMWorkflow._t_agent_node` (src/workflow.py lines 39-49): stores the
result on success; on an exception stores
`"T-Agent error: " ++ message` in the error slot. -/
def tAgentNode (beh : AgentBehaviors) (s : WorkflowState) : WorkflowState :=
  match beh.t with
  | Except.ok r => { s with t_result := some r }
  | Except.error e => { s with error := some ("T-Agent error: " ++ e) }

/-- The context-building lines of `TNMWorkflow._n_agent_node`
(src/workflow.py lines 56-61): the `tumor_laterality` entry is added
exactly when the tumor result is truthy and carries a truthy
`laterality` value. -/
def nodeContext (s : WorkflowState) : Option Json :=
  match s.t_result with
  | some tr =>
      if pyTruthy (Json.obj tr) then
        match getKey tr "laterality" with
        | some v => if pyTruthy v then some v else none
        | none => none
      else none
  | none => none

/-- `TNMWorkflow._n_agent_node` (src/workflow.py lines 51-69). -/
def nAgentNode (beh : AgentBehaviors) (s : WorkflowState) : WorkflowState :=
  match beh.n (nodeContext s) with
  | Except.ok r => { s with n_result := some r }
  | Except.error e => { s with error := some ("N-Agent error: " ++ e) }

/-- `TNMWorkflow._m_agent_node` (src/workflow.py lines 71-81). -/
def mAgentNode (beh : AgentBehaviors) (s : WorkflowState) : WorkflowState :=
  match beh.m with
  | Except.ok r => { s with m_result := some r }
  | Except.error e => { s with error := some ("M-Agent error: " ++ e) }

/-- The state after the three sequential stage nodes
(`t_agent -> n_agent -> m_agent`, src/workflow.py lines 131-137). -/
def agentsState (beh : AgentBehaviors) : WorkflowState :=
  mAgentNode beh (nAgentNode beh (tAgentNode beh initState))

/-- The `all([state.get("t_result"), state.get("n_result"),
state.get("m_result")])` join test. -/
def allSlotsTruthy (s : WorkflowState) : Bool :=
  slotTruthy s.t_result && slotTruthy s.n_result && slotTruthy s.m_result

/-- `TNMWorkflow._should_continue_after_agents` (src/workflow.py lines
105-117): a truthy recorded error ends the run as-is; otherwise the run
continues to the compiler when all three results are truthy, and ends
with `error = "Incomplete staging results"` when not. Returns whether
the compiler edge is taken, paired with the (possibly updated) state. -/
def shouldContinueAfterAgents (s : WorkflowState) : Bool × WorkflowState :=
  if errTruthy s.error then (false, s)
  else if allSlotsTruthy s then (true, s)
  else (false, { s with error := some "Incomplete staging results" })

/-- `StagingCompiler.analyze` (src/agents/staging_compiler.py lines
123-140): raises unless all of `t_result`, `n_result`, `m_result` are
keys of the context, then hands the three payloads to
`compile_staging` (abstracted as the behaviour oracle `c`). -/
def compilerAnalyze (c : Json → Json → Json → Except String Dict)
    (context : Dict) : Except String Dict :=
  if hasKey context "t_result" && hasKey context "n_result" &&
      hasKey context "m_result" then
    c ((getKey context "t_result").getD Json.null)
      ((getKey context "n_result").getD Json.null)
      ((getKey context "m_result").getD Json.null)
  else
    Except.error "Staging Compiler requires t_result, n_result, and m_result in context"

/-- `TNMWorkflow._compiler_node` (src/workflow.py lines 83-103): its own
guard raises `ValueError("Missing one or more staging components
(T/N/M)")` when any slot is falsy (caught and prefixed like every other
compiler exception); otherwise it builds the three-key context and calls
`StagingCompiler.analyze`. The Boolean records whether
`StagingCompiler.analyze` was invoked. -/
def compilerNode (beh : AgentBehaviors) (s : WorkflowState) :
    WorkflowState × Bool :=
  if allSlotsTruthy s then
    let context : Dict :=
      [("t_result", Json.obj (s.t_result.getD [])),
       ("n_result", Json.obj (s.n_result.getD [])),
       ("m_result", Json.obj (s.m_result.getD []))]
    match compilerAnalyze beh.compiler context with
    | Except.ok r => ({ s with final_staging := some r }, true)
    | Except.error e =>
        ({ s with error := some ("Staging Compiler error: " ++ e) }, true)
  else
    ({ s with error := some "Staging Compiler error: Missing one or more staging components (T/N/M)" },
     false)

/-- Whether the compiler agent is invoked during a run. -/
structure RunTrace where
  compilerCalled : Bool

/-- One execution of the compiled graph (src/workflow.py lines 119-152):
the three stage nodes in sequence, the conditional join, then the
compiler node when the join allows it. -/
def runGraphTraced (beh : AgentBehaviors) : WorkflowState × RunTrace :=
  match shouldContinueAfterAgents (agentsState beh) with
  | (true, s) =>
    let r := compilerNode beh s
    (r.1, { compilerCalled := r.2 })
  | (false, s) => (s, { compilerCalled := false })

/-- The final graph state of a run. -/
def runGraph (beh : AgentBehaviors) : WorkflowState :=
  (runGraphTraced beh).1

/-- The structured result `TNMWorkflow.run` returns. The Python failure
`partial_results` entry of the Python failure dict is modelled by `recovered_results`
(the name `partial_results` itself is kept in comments only); `none`
means the returned dict has no such entry at all, as in the
catch-all branch. -/
structure RunResult where
  success : Bool
  error : Option String := none
  staging : Option Dict := none
  recovered_results : Option (Option Dict × Option Dict × Option Dict) := none

/-- The body of `TNMWorkflow.run` after `graph.invoke` (src/workflow.py
lines 183-212), as a function of the invoke outcome: `Except.error`
models an unexpected exception escaping graph execution (caught by the
catch-all, returning a failure without any recovered results);
`Except.ok` models normal completion, split on the truthiness of the
final error into the diagnostic failure shape (error plus the three
result slots) or the success shape. `run` itself never raises: every
branch returns a `RunResult`. -/
def runFromInvoke (inv : Except String WorkflowState) : RunResult :=
  match inv with
  | Except.error e =>
      { success := false, error := some ("Workflow error: " ++ e) }
  | Except.ok fs =>
      if errTruthy fs.error then
        { success := false, error := fs.error,
          recovered_results := some (fs.t_result, fs.n_result, fs.m_result) }
      else
        { success := true, staging := fs.final_staging }

/-- `TNMWorkflow.run` when graph execution completes normally. -/
def runWorkflow (beh : AgentBehaviors) : RunResult :=
  runFromInvoke (Except.ok (runGraph beh))

/-- Modelled from the spec: "Node receives the laterality output of the Tumor result
as context when present" (spec section 4.4) — the context the Node agent
should see, as a function of that of the Tumor agent outcome alone. Compared
against `nodeContext` in the C2 theorem. -/
def nodeContextSpec (t : Except String Dict) : Option Json :=
  match t with
  | Except.error _ => none
  | Except.ok tr =>
      match getKey tr "laterality" with
      | some v => if pyTruthy v then some v else none
      | none => none

/-! ## Concrete fixtures used by witnesses and counterexamples -/

/-- A validated tumor result dump carrying a right-sided laterality. -/
def tOkDict : Dict :=
  [("stage", Json.str "T2a"), ("laterality", Json.str "right"),
   ("evidence", Json.str "38mm right upper lobe mass")]

/-- A validated node result dump. -/
def nOkDict : Dict :=
  [("stage", Json.str "N0"), ("evidence", Json.str "no nodal uptake")]

/-- A validated metastasis result dump. -/
def mOkDict : Dict :=
  [("stage", Json.str "M0"), ("evidence", Json.str "no distant disease")]

/-- A compiled staging payload. -/
def stagingDict : Dict :=
  [("tnm_stage", Json.str "T2aN0M0"), ("overall_stage", Json.str "Stage IB")]

/-- A metastasis site payload. -/
def mkSite (organ loc : String) : Dict :=
  [("organ_system", Json.str organ), ("location", Json.str loc),
   ("description", Json.str "FDG-avid lesion")]

/-- Three metastasis sites spanning two distinct organ systems
(bone, liver, bone). -/
def mBadSites : List Json :=
  [Json.obj (mkSite "bone" "L3 vertebra"),
   Json.obj (mkSite "liver" "segment 7"),
   Json.obj (mkSite "bone" "right iliac wing")]

/-- A Metastasis result whose `organ_systems_count` is the negative
integer -1 while its sites span two distinct organ systems. -/
def mBadDict : Dict :=
  [("stage", Json.str "M1b"),
   ("metastasis_sites", Json.arr mBadSites),
   ("organ_systems_count", Json.num (-1)),
   ("evidence", Json.str "osseous and hepatic metastases")]

/-- Behaviours where the T agent fails terminally and everything else
succeeds. -/
def behTFails : AgentBehaviors :=
  { t := Except.error "llm down",
    n := fun _ => Except.ok nOkDict,
    m := Except.ok mOkDict,
    compiler := fun _ _ _ => Except.ok stagingDict }

/-- Behaviours where the T agent fails and then the N agent also fails. -/
def behTNFail : AgentBehaviors :=
  { t := Except.error "t boom",
    n := fun _ => Except.error "n boom",
    m := Except.ok mOkDict,
    compiler := fun _ _ _ => Except.ok stagingDict }

/-- A transport oracle that always returns the empty string as response
content (a syntactically invalid JSON document). -/
def emptyTransport : Nat → Except String String :=
  fun _ => Except.ok ""

/-- A transport oracle that always returns the fixed non-empty,
non-JSON text `"not json"`. -/
def garbageTransport : Nat → Except String String :=
  fun _ => Except.ok "not json"

/-- A transport oracle whose every call raises a connection error. -/
def downTransport : Nat → Except String String :=
  fun _ => Except.error "connection refused"

/-- A parse oracle that rejects everything, matching `json.loads` on the
strings the failing transports above produce (neither `""` nor
`"not json"` is valid JSON). -/
def rejectAllParse : String → Option Dict :=
  fun _ => none

/-- The result slot an agent node stores for an agent outcome: the
payload on success, nothing on a raised error. -/
def resOf : Except String Dict → Option Dict
  | Except.ok r => some r
  | Except.error _ => none

/-- The `evidence`-shaped field of a dict is in normalized form: not a
list and not `null` (so a second normalization pass leaves it alone). -/
def evidenceNormalized (fieldName : String) (d : Dict) : Bool :=
  match getKey d fieldName with
  | some (Json.arr _) => false
  | some Json.null => false
  | _ => true

/-- The nested sub-object at `key` is in normalized form: when it is a
dict, its `evidence` field is normalized. -/
def subNormalized (key : String) (d : Dict) : Bool :=
  match getKey d key with
  | some (Json.obj fs) => evidenceNormalized "evidence" fs
  | _ => true

/-! # Theorems -/

theorem getKey_setKey_self (d : Dict) (k : String) (v : Json) :
    getKey (setKey d k v) k = some v := by
  induction d with
  | nil => simp [setKey, getKey]
  | cons p rest ih =>
    obtain ⟨k', v'⟩ := p
    by_cases h : k' = k <;> simp [setKey, getKey, h, ih]

theorem getKey_setKey_ne (d : Dict) (k k' : String) (v : Json)
    (h : k' ≠ k) : getKey (setKey d k' v) k = getKey d k := by
  induction d with
  | nil => simp [setKey, getKey, h]
  | cons p rest ih =>
    obtain ⟨k1, v1⟩ := p
    by_cases h1 : k1 = k'
    · subst h1
      simp [setKey, getKey, h]
    · simp [setKey, getKey, h1, ih]

theorem setKey_of_getKey (d : Dict) (k : String) (v : Json)
    (h : getKey d k = some v) : setKey d k v = d := by
  induction d with
  | nil => simp [getKey] at h
  | cons p rest ih =>
    obtain ⟨k1, v1⟩ := p
    by_cases h1 : k1 = k
    · subst h1
      simp [getKey] at h
      simp [setKey, h]
    · simp [getKey, h1] at h
      simp [setKey, h1, ih h]

theorem evidenceNormalized_of_getKey_eq (f : String) (d d' : Dict)
    (h : getKey d' f = getKey d f) :
    evidenceNormalized f d' = evidenceNormalized f d := by
  unfold evidenceNormalized
  rw [h]

theorem subNormalized_of_getKey_eq (key : String) (d d' : Dict)
    (h : getKey d' key = getKey d key) :
    subNormalized key d' = subNormalized key d := by
  unfold subNormalized
  rw [h]

theorem evidenceNormalized_normalizeEvidenceField (f : String) (d : Dict) :
    evidenceNormalized f (normalizeEvidenceField f d) = true := by
  unfold normalizeEvidenceField
  cases hg : getKey d f with
  | none => simp [evidenceNormalized, hg]
  | some v =>
    cases v <;> simp [evidenceNormalized, hg, getKey_setKey_self]

theorem normalizeEvidenceField_of_normalized (f : String) (d : Dict)
    (h : evidenceNormalized f d = true) :
    normalizeEvidenceField f d = d := by
  unfold normalizeEvidenceField
  cases hg : getKey d f with
  | none => rfl
  | some v =>
    cases v <;> simp [evidenceNormalized, hg] at h <;> rfl

theorem getKey_normalizeEvidenceField_ne (f k : String) (d : Dict)
    (h : f ≠ k) :
    getKey (normalizeEvidenceField f d) k = getKey d k := by
  unfold normalizeEvidenceField
  cases hg : getKey d f with
  | none => rfl
  | some v =>
    cases v <;> first
      | rfl
      | rw [getKey_setKey_ne _ _ _ _ h]

theorem subNormalized_normalizeSubObject (key : String) (d : Dict) :
    subNormalized key (normalizeSubObject key d) = true := by
  unfold normalizeSubObject
  cases hg : getKey d key with
  | none => simp [subNormalized, hg]
  | some v =>
    cases v <;>
      simp [subNormalized, hg, getKey_setKey_self,
        evidenceNormalized_normalizeEvidenceField]

theorem normalizeSubObject_of_normalized (key : String) (d : Dict)
    (h : subNormalized key d = true) :
    normalizeSubObject key d = d := by
  unfold normalizeSubObject
  cases hg : getKey d key with
  | none => rfl
  | some v =>
    cases v with
    | obj fs =>
      simp [subNormalized, hg] at h
      simp only [normalizeEvidenceField_of_normalized _ _ h]
      exact setKey_of_getKey _ _ _ hg
    | _ => rfl

theorem getKey_normalizeSubObject_ne (key k : String) (d : Dict)
    (h : key ≠ k) :
    getKey (normalizeSubObject key d) k = getKey d k := by
  unfold normalizeSubObject
  cases hg : getKey d key with
  | none => rfl
  | some v =>
    cases v <;> first
      | rfl
      | rw [getKey_setKey_ne _ _ _ _ h]

theorem evidenceNormalized_normalizeSubObject (key f : String) (d : Dict)
    (h : key ≠ f) :
    evidenceNormalized f (normalizeSubObject key d) = evidenceNormalized f d :=
  evidenceNormalized_of_getKey_eq _ _ _ (getKey_normalizeSubObject_ne _ _ _ h)

theorem subNormalized_normalizeSubObject_ne (key k : String) (d : Dict)
    (h : key ≠ k) :
    subNormalized k (normalizeSubObject key d) = subNormalized k d :=
  subNormalized_of_getKey_eq _ _ _ (getKey_normalizeSubObject_ne _ _ _ h)

theorem subNormalized_normalizeEvidenceField (f k : String) (d : Dict)
    (h : f ≠ k) :
    subNormalized k (normalizeEvidenceField f d) = subNormalized k d :=
  subNormalized_of_getKey_eq _ _ _ (getKey_normalizeEvidenceField_ne _ _ _ h)

/-- C7: the response normalizer is idempotent: for every JSON-object
input, `normalize_agent_response (normalize_agent_response x) =
normalize_agent_response x`, where the normalizer rewrites the top-level
`evidence` field and the `evidence` fields of the nested
`tumor`/`nodes`/`metastasis` sub-objects (src/utils.py lines 41-66). -/
theorem normalize_agent_response_idempotent (d : Dict) :
    normalizeAgentResponse (normalizeAgentResponse d) =
      normalizeAgentResponse d := by
  set d4 := normalizeAgentResponse d with hd4
  have hEv : evidenceNormalized "evidence" d4 = true := by
    rw [hd4]
    unfold normalizeAgentResponse
    rw [evidenceNormalized_normalizeSubObject _ _ _ (by decide),
      evidenceNormalized_normalizeSubObject _ _ _ (by decide),
      evidenceNormalized_normalizeSubObject _ _ _ (by decide)]
    exact evidenceNormalized_normalizeEvidenceField _ _
  have hT : subNormalized "tumor" d4 = true := by
    rw [hd4]
    unfold normalizeAgentResponse
    rw [subNormalized_normalizeSubObject_ne _ _ _ (by decide),
      subNormalized_normalizeSubObject_ne _ _ _ (by decide)]
    exact subNormalized_normalizeSubObject _ _
  have hN : subNormalized "nodes" d4 = true := by
    rw [hd4]
    unfold normalizeAgentResponse
    rw [subNormalized_normalizeSubObject_ne _ _ _ (by decide)]
    exact subNormalized_normalizeSubObject _ _
  have hM : subNormalized "metastasis" d4 = true := by
    rw [hd4]
    unfold normalizeAgentResponse
    exact subNormalized_normalizeSubObject _ _
  conv_lhs => unfold normalizeAgentResponse
  rw [normalizeEvidenceField_of_normalized _ _ hEv,
    normalizeSubObject_of_normalized _ _ hT,
    normalizeSubObject_of_normalized _ _ hN,
    normalizeSubObject_of_normalized _ _ hM]

/-- C8: normalization of the evidence field coerces the list
`["a", "", "b"]` to the string `"a b"` (falsy items dropped, the rest
joined with single spaces in order), coerces `null` to `""`, and leaves
every value that is neither a list nor `null` unchanged
(src/utils.py lines 12-38). -/
theorem normalize_evidence_coercion :
    normalizeEvidenceField "evidence"
        [("evidence", Json.arr [Json.str "a", Json.str "", Json.str "b"])] =
      [("evidence", Json.str "a b")]
    ∧ normalizeEvidenceField "evidence" [("evidence", Json.null)] =
        [("evidence", Json.str "")]
    ∧ (∀ (d : Dict) (v : Json), getKey d "evidence" = some v →
        (∀ xs, v ≠ Json.arr xs) → v ≠ Json.null →
        normalizeEvidenceField "evidence" d = d) := by
  refine ⟨rfl, rfl, ?_⟩
  intro d v hg hArr hNull
  unfold normalizeEvidenceField
  rw [hg]
  cases v with
  | arr xs => exact absurd rfl (hArr xs)
  | null => exact absurd rfl hNull
  | _ => rfl

/-- Witness for C8: a numeric evidence value (neither a list nor `null`)
is left unchanged by normalization. -/
theorem normalize_evidence_coercion_witness :
    normalizeEvidenceField "evidence" [("evidence", Json.num 5)] =
      [("evidence", Json.num 5)] :=
  normalize_evidence_coercion.2.2 [("evidence", Json.num 5)] (Json.num 5)
    rfl (fun _ h => Json.noConfusion h) (fun h => Json.noConfusion h)

theorem reqStr_spec (d : Dict) (k : String) (h : reqStr d k = true) :
    ∃ s, getKey d k = some (Json.str s) := by
  unfold reqStr at h
  split at h
  · next s heq => exact ⟨s, heq⟩
  · exact absurd h (by simp)

/-- C9 counterexample: an object whose `evidence` is the empty string —
exactly what normalizing a `null` evidence value produces — validates
successfully against the `TStageResult` schema, because
`evidence: str = Field(...)` (src/models.py line 28) carries no
minimum-length constraint. The claim states such an object does not
validate. -/
theorem evidence_empty_validates :
    normalizeAgentResponse [("stage", Json.str "T1a"), ("evidence", Json.null)] =
      [("stage", Json.str "T1a"), ("evidence", Json.str "")]
    ∧ validateTStageResult
        (normalizeAgentResponse
          [("stage", Json.str "T1a"), ("evidence", Json.null)]) = true := by
  exact ⟨rfl, rfl⟩

/-- C9 amended: for every stage result object that passes schema
validation, its `evidence` field is present and is a string — but not
necessarily non-empty: for each of the Tumor, Node and Metastasis
schemas, an object whose `evidence` is `""` validates successfully, and
a Combined-Staging object whose three nested `evidence` fields are all
`""` validates successfully. -/
theorem validation_evidence_is_string :
    (∀ d, validateTStageResult d = true →
      ∃ s, getKey d "evidence" = some (Json.str s))
    ∧ (∀ d, validateNStageResult d = true →
      ∃ s, getKey d "evidence" = some (Json.str s))
    ∧ (∀ d, validateMStageResult d = true →
      ∃ s, getKey d "evidence" = some (Json.str s))
    ∧ validateTStageResult [("stage", Json.str "T1a"), ("evidence", Json.str "")] = true
    ∧ validateNStageResult [("stage", Json.str "N0"), ("evidence", Json.str "")] = true
    ∧ validateMStageResult [("stage", Json.str "M0"), ("evidence", Json.str "")] = true
    ∧ validateTNMStaging
        [("tnm_stage", Json.str "T1aN0M0"), ("overall_stage", Json.str "Stage IA1"),
         ("tumor", Json.obj [("stage", Json.str "T1a"), ("evidence", Json.str "")]),
         ("nodes", Json.obj [("stage", Json.str "N0"), ("evidence", Json.str "")]),
         ("metastasis", Json.obj [("stage", Json.str "M0"), ("evidence", Json.str "")]),
         ("summary", Json.str "early stage")] = true := by
  refine ⟨?_, ?_, ?_, rfl, rfl, rfl, rfl⟩
  · intro d h
    unfold validateTStageResult at h
    simp only [Bool.and_eq_true] at h
    exact reqStr_spec _ _ h.1.2
  · intro d h
    unfold validateNStageResult at h
    simp only [Bool.and_eq_true] at h
    exact reqStr_spec _ _ h.1.2
  · intro d h
    unfold validateMStageResult at h
    simp only [Bool.and_eq_true] at h
    exact reqStr_spec _ _ h.1.2

/-- Witness for C9 (amended): the validated tumor fixture has a string
evidence field. -/
theorem validation_evidence_is_string_witness :
    validateTStageResult tOkDict = true
    ∧ ∃ s, getKey tOkDict "evidence" = some (Json.str s) :=
  ⟨rfl, validation_evidence_is_string.1 tOkDict rfl⟩

/-- C10 counterexample: a Metastasis result listing sites in organ
systems bone/liver/bone with `organ_systems_count = -1` passes schema
validation (src/models.py lines 75-93 declare `organ_systems_count: int
= Field(default=0)` with no bound and no consistency validator), even
though the count is negative, the site list is non-empty, and the
recomputed number of distinct organ systems is 2. -/
theorem organ_systems_count_unchecked :
    validateMStageResult mBadDict = true
    ∧ getKey mBadDict "organ_systems_count" = some (Json.num (-1))
    ∧ ¬ ((0 : ℚ) ≤ -1)
    ∧ mBadSites ≠ []
    ∧ distinctOrganSystemsCount mBadSites = 2
    ∧ ((-1 : ℚ) ≠ (2 : ℚ)) := by
  refine ⟨rfl, rfl, by norm_num, by simp [mBadSites], by decide, by norm_num⟩

/-- C10 amended: schema validation constrains `organ_systems_count` only
to be an integral number (defaulting to 0 when absent): replacing the
field of any validated Metastasis result by an arbitrary integer — of
any sign, and regardless of `metastasis_sites` — preserves validity. -/
theorem organ_systems_count_any_int (d : Dict) (z : ℤ)
    (h : validateMStageResult d = true) :
    validateMStageResult (setKey d "organ_systems_count" (Json.num (z : ℚ))) = true := by
  unfold validateMStageResult at h ⊢
  simp only [Bool.and_eq_true] at h ⊢
  obtain ⟨⟨⟨⟨h1, h2⟩, _⟩, h4⟩, h5⟩ := h
  refine ⟨⟨⟨⟨?_, ?_⟩, ?_⟩, ?_⟩, ?_⟩
  · unfold reqStr at h1 ⊢
    rw [getKey_setKey_ne _ _ _ _ (by decide)]
    exact h1
  · unfold modelList at h2 ⊢
    rw [getKey_setKey_ne _ _ _ _ (by decide)]
    exact h2
  · unfold intField
    rw [getKey_setKey_self]
    simp
  · unfold reqStr at h4 ⊢
    rw [getKey_setKey_ne _ _ _ _ (by decide)]
    exact h4
  · unfold optStr at h5 ⊢
    rw [getKey_setKey_ne _ _ _ _ (by decide)]
    exact h5

/-- Witness for C10 (amended): overwriting the count of a validated
fixture with the integer -7 still validates. -/
theorem organ_systems_count_any_int_witness :
    validateMStageResult mOkDict = true
    ∧ validateMStageResult
        (setKey mOkDict "organ_systems_count" (Json.num ((-7 : ℤ) : ℚ))) = true :=
  ⟨rfl, organ_systems_count_any_int mOkDict (-7) rfl⟩

theorem errTruthy_some (e : String) (h : e ≠ "") :
    errTruthy (some e) = true := by
  simp [errTruthy, h]

theorem append_ne_empty_left (p nm : String) (hp : p.data ≠ []) :
    p ++ nm ≠ "" := by
  intro h
  have h2 := congrArg String.data h
  simp at h2
  exact hp h2.1

theorem tAgentNode_n_result (beh : AgentBehaviors) (s : WorkflowState) :
    (tAgentNode beh s).n_result = s.n_result := by
  unfold tAgentNode
  split <;> rfl

theorem tAgentNode_m_result (beh : AgentBehaviors) (s : WorkflowState) :
    (tAgentNode beh s).m_result = s.m_result := by
  unfold tAgentNode
  split <;> rfl

theorem nAgentNode_m_result (beh : AgentBehaviors) (s : WorkflowState) :
    (nAgentNode beh s).m_result = s.m_result := by
  unfold nAgentNode
  split <;> rfl

theorem mAgentNode_n_result (beh : AgentBehaviors) (s : WorkflowState) :
    (mAgentNode beh s).n_result = s.n_result := by
  unfold mAgentNode
  split <;> rfl

theorem mAgentNode_m_result (beh : AgentBehaviors) (s : WorkflowState) :
    (mAgentNode beh s).m_result = resOf beh.m ∨
      ((mAgentNode beh s).m_result = s.m_result ∧ resOf beh.m = none) := by
  unfold mAgentNode resOf
  cases beh.m <;> simp

/-- C2: the state machine advances unconditionally from the Tumor stage
to the Node stage and from Node to Metastasis: the Node and Metastasis
outcomes always land in the final pre-join state — also when the Tumor
agent terminates with an error, in which case its result slot stays
absent and the error is recorded — and the context handed to the Node
agent is the Tumor laterality exactly as `nodeContextSpec` describes it
(present only when a Tumor result with a truthy laterality exists). -/
theorem workflow_unconditional_advance (beh : AgentBehaviors) :
    nodeContext (tAgentNode beh initState) = nodeContextSpec beh.t
    ∧ (agentsState beh).n_result = resOf (beh.n (nodeContextSpec beh.t))
    ∧ (agentsState beh).m_result = resOf beh.m
    ∧ (∀ e, beh.t = Except.error e →
        (tAgentNode beh initState).t_result = none
        ∧ (tAgentNode beh initState).error = some ("T-Agent error: " ++ e)) := by
  have hctx : nodeContext (tAgentNode beh initState) = nodeContextSpec beh.t := by
    cases ht : beh.t with
    | error e =>
        simp [tAgentNode, ht, nodeContext, nodeContextSpec, initState]
    | ok tr =>
        cases tr with
        | nil =>
            simp [tAgentNode, ht, nodeContext, nodeContextSpec, pyTruthy, getKey,
              initState]
        | cons p rest =>
            simp [tAgentNode, ht, nodeContext, nodeContextSpec, pyTruthy, initState]
  refine ⟨hctx, ?_, ?_, ?_⟩
  · unfold agentsState
    rw [mAgentNode_n_result, ← hctx]
    unfold nAgentNode
    cases hn : beh.n (nodeContext (tAgentNode beh initState)) with
    | ok r => simp [resOf]
    | error e => simp [resOf, tAgentNode_n_result, initState]
  · unfold agentsState
    cases hm : beh.m <;>
      simp [mAgentNode, hm, resOf, nAgentNode_m_result, tAgentNode_m_result,
        initState]
  · intro e ht
    constructor <;> simp [tAgentNode, ht, initState]

/-- Witness for C2: with a failing Tumor agent the error is recorded and
the result slot stays empty, while the Node and Metastasis agents still
deliver their results into the pre-join state. -/
theorem workflow_unconditional_advance_witness :
    ((tAgentNode behTFails initState).t_result = none
      ∧ (tAgentNode behTFails initState).error =
          some ("T-Agent error: " ++ "llm down"))
    ∧ (agentsState behTFails).n_result = some nOkDict
    ∧ (agentsState behTFails).m_result = some mOkDict :=
  ⟨(workflow_unconditional_advance behTFails).2.2.2 "llm down" rfl,
   (workflow_unconditional_advance behTFails).2.1,
   (workflow_unconditional_advance behTFails).2.2.1⟩

/-- C1 (amended): when any of the Tumor/Node/Metastasis slots is absent
(falsy) at the join after the Metastasis stage, the Compiler agent is
never invoked and the run returns `success = false`; the error carried
is the recorded agent error when one is present — absence only arises
from an agent failure, which records its own error first — and the
dependency-incomplete message `"Incomplete staging results"` only when
no error was recorded; `StagingCompiler.analyze` itself refuses whenever
any of the three component keys is missing from its context. -/
theorem workflow_join_guard (beh : AgentBehaviors)
    (h : allSlotsTruthy (agentsState beh) = false) :
    (runGraphTraced beh).2.compilerCalled = false
    ∧ (runWorkflow beh).success = false
    ∧ (errTruthy (agentsState beh).error = true →
        (runWorkflow beh).error = (agentsState beh).error)
    ∧ (errTruthy (agentsState beh).error = false →
        (runWorkflow beh).error = some "Incomplete staging results")
    ∧ (∀ (c : Json → Json → Json → Except String Dict) (context : Dict),
        (hasKey context "t_result" && hasKey context "n_result" &&
          hasKey context "m_result") = false →
        compilerAnalyze c context =
          Except.error "Staging Compiler requires t_result, n_result, and m_result in context") := by
  have hRefuse : ∀ (c : Json → Json → Json → Except String Dict) (context : Dict),
      (hasKey context "t_result" && hasKey context "n_result" &&
        hasKey context "m_result") = false →
      compilerAnalyze c context =
        Except.error "Staging Compiler requires t_result, n_result, and m_result in context" := by
    intro c context hk
    unfold compilerAnalyze
    rw [hk]
    rfl
  cases hE : errTruthy (agentsState beh).error with
  | true =>
    have hS : shouldContinueAfterAgents (agentsState beh) =
        (false, agentsState beh) := by
      unfold shouldContinueAfterAgents
      rw [hE]
      rfl
    have hG : runGraphTraced beh =
        (agentsState beh, { compilerCalled := false }) := by
      unfold runGraphTraced
      rw [hS]
    refine ⟨by rw [hG], ?_, ?_, ?_, hRefuse⟩
    · unfold runWorkflow runGraph runFromInvoke
      rw [hG]
      simp [hE]
    · intro _
      unfold runWorkflow runGraph runFromInvoke
      rw [hG]
      simp [hE]
    · intro h'
      exact Bool.noConfusion h'
  | false =>
    have hS : shouldContinueAfterAgents (agentsState beh) =
        (false, { agentsState beh with error := some "Incomplete staging results" }) := by
      unfold shouldContinueAfterAgents
      rw [hE, h]
      rfl
    have hG : runGraphTraced beh =
        ({ agentsState beh with error := some "Incomplete staging results" },
         { compilerCalled := false }) := by
      unfold runGraphTraced
      rw [hS]
    refine ⟨by rw [hG], ?_, ?_, ?_, hRefuse⟩
    · unfold runWorkflow runGraph runFromInvoke
      rw [hG]
      simp [errTruthy]
    · intro h'
      exact Bool.noConfusion h'
    · intro _
      unfold runWorkflow runGraph runFromInvoke
      rw [hG]
      simp [errTruthy]

/-- Witness for C1 (amended): with a failing Tumor agent the join sees a
missing tumor slot, the compiler is never invoked, and the run fails
carrying the recorded agent error. -/
theorem workflow_join_guard_witness :
    allSlotsTruthy (agentsState behTFails) = false
    ∧ (runGraphTraced behTFails).2.compilerCalled = false
    ∧ (runWorkflow behTFails).success = false
    ∧ (runWorkflow behTFails).error = (agentsState behTFails).error :=
  ⟨rfl, (workflow_join_guard behTFails rfl).1,
   (workflow_join_guard behTFails rfl).2.1,
   (workflow_join_guard behTFails rfl).2.2.1 rfl⟩

/-- C1 counterexample: in the run where the Tumor agent fails (Node,
Metastasis and Compiler all healthy), the tumor slot is absent at the
join and the compiler is never invoked — but the failure result carries
the terminal error of the T agent itself, which is neither the
dependency-incomplete message of the join guard nor the
missing-components refusal, contradicting the claim that the run result
carries a DependencyIncomplete-class error. -/
theorem workflow_join_guard_counterexample :
    runWorkflow behTFails =
      { success := false, error := some "T-Agent error: llm down",
        staging := none,
        recovered_results := some (none, some nOkDict, some mOkDict) }
    ∧ (runGraphTraced behTFails).2.compilerCalled = false
    ∧ "T-Agent error: llm down" ≠ "Incomplete staging results"
    ∧ "T-Agent error: llm down" ≠
        "Staging Compiler error: Missing one or more staging components (T/N/M)" :=
  ⟨rfl, rfl, by decide, by decide⟩

/-- C5 (amended): `run` never raises — every branch of the body after
`graph.invoke` produces a structured `RunResult` — and a failed run
carries the terminal error message; the three partial component slots
are attached when graph execution completed normally with a recorded
error, but the catch-all branch for an unexpected exception escaping
graph execution returns only the error, with no partial results
(src/workflow.py lines 183-212). -/
theorem run_failure_shapes (fs : WorkflowState) (e : String) :
    (errTruthy fs.error = true →
      runFromInvoke (Except.ok fs) =
        { success := false, error := fs.error, staging := none,
          recovered_results := some (fs.t_result, fs.n_result, fs.m_result) })
    ∧ runFromInvoke (Except.error e) =
        { success := false, error := some ("Workflow error: " ++ e),
          staging := none, recovered_results := none }
    ∧ (errTruthy fs.error = false →
      runFromInvoke (Except.ok fs) =
        { success := true, error := none, staging := fs.final_staging,
          recovered_results := none }) := by
  refine ⟨?_, rfl, ?_⟩ <;> intro h <;> simp [runFromInvoke, h]

/-- Witness for C5 (amended): the failing-T run final state carries a
truthy error, so the normal-completion failure shape applies to it. -/
theorem run_failure_shapes_witness :
    errTruthy (runGraph behTFails).error = true
    ∧ runFromInvoke (Except.ok (runGraph behTFails)) =
        { success := false, error := (runGraph behTFails).error,
          staging := none,
          recovered_results :=
            some ((runGraph behTFails).t_result, (runGraph behTFails).n_result,
              (runGraph behTFails).m_result) } :=
  ⟨rfl, (run_failure_shapes (runGraph behTFails) "x").1 rfl⟩

/-- C5 counterexample: when an unexpected exception escapes graph
execution, the returned failure object has no partial-results entry at
all, contradicting the claim that the failure result contains all
partial component results in that case too. -/
theorem run_failure_shapes_counterexample :
    runFromInvoke (Except.error "graph blew up") =
      { success := false, error := some "Workflow error: graph blew up",
        staging := none, recovered_results := none }
    ∧ (runFromInvoke (Except.error "graph blew up")).recovered_results = none :=
  ⟨rfl, rfl⟩

/-- C6 (amended): when several stage agents fail terminally in one run,
each failure overwrites the shared error slot, so the reported error is
the most recent failing agent: with the Tumor agent failing first and
the Node agent failing after it (Metastasis succeeding), the run reports
the terminal error of the Node agent, not that of the Tumor agent. -/
theorem workflow_last_error_reported (beh : AgentBehaviors)
    (tm nm : String) (mr : Dict)
    (ht : beh.t = Except.error tm)
    (hn : beh.n none = Except.error nm)
    (hm : beh.m = Except.ok mr) :
    runWorkflow beh =
      { success := false, error := some ("N-Agent error: " ++ nm),
        staging := none,
        recovered_results := some (none, none, some mr) } := by
  have hs1 : tAgentNode beh initState =
      { t_result := none, n_result := none, m_result := none,
        final_staging := none, error := some ("T-Agent error: " ++ tm) } := by
    unfold tAgentNode
    rw [ht]
    rfl
  have hs2 : nAgentNode beh (tAgentNode beh initState) =
      { t_result := none, n_result := none, m_result := none,
        final_staging := none, error := some ("N-Agent error: " ++ nm) } := by
    unfold nAgentNode
    rw [hs1]
    have hc : nodeContext
        { t_result := none, n_result := none, m_result := none,
          final_staging := none,
          error := some ("T-Agent error: " ++ tm) } = none := rfl
    rw [hc, hn]
  have hs3 : agentsState beh =
      { t_result := none, n_result := none, m_result := some mr,
        final_staging := none, error := some ("N-Agent error: " ++ nm) } := by
    unfold agentsState mAgentNode
    rw [hs2, hm]
  have hTru : errTruthy (some ("N-Agent error: " ++ nm)) = true :=
    errTruthy_some _ (append_ne_empty_left _ _ (by decide))
  have hS : shouldContinueAfterAgents (agentsState beh) =
      (false, agentsState beh) := by
    unfold shouldContinueAfterAgents
    rw [hs3]
    simp [hTru]
  unfold runWorkflow runGraph runGraphTraced runFromInvoke
  rw [hS, hs3]
  simp [hTru]

/-- Witness for C6 (amended): the double-failure fixture reports the
Node agent error. -/
theorem workflow_last_error_reported_witness :
    runWorkflow behTNFail =
      { success := false, error := some ("N-Agent error: " ++ "n boom"),
        staging := none,
        recovered_results := some (none, none, some mOkDict) } :=
  workflow_last_error_reported behTNFail "t boom" "n boom" mOkDict rfl rfl rfl

/-- C6 counterexample: in the run where the Tumor agent fails with
`"t boom"` and the Node agent then fails with `"n boom"`, the reported
error is the Node agent — the later failure — not that of the Tumor agent,
contradicting the claim that the first failing agent error is
reported. -/
theorem workflow_first_error_counterexample :
    (runWorkflow behTNFail).error = some "N-Agent error: n boom"
    ∧ some "N-Agent error: n boom" ≠ some "T-Agent error: t boom" :=
  ⟨rfl, by decide⟩

theorem callLLMGo_ok (d : ℚ) (transport : Nat → Except String String)
    (s : String) (fuel a k : Nat)
    (hs : transportStep transport k = Except.ok s) :
    callLLMGo d transport (fuel + 1) a k = (Except.ok s, 1, []) := by
  unfold callLLMGo
  rw [hs]

theorem callLLMGo_fail (d : ℚ) (transport : Nat → Except String String)
    (m : String) (h : ∀ i, transportStep transport i = Except.error m) :
    ∀ fuel a k, callLLMGo d transport (fuel + 1) a k =
      (Except.error m, fuel + 1, linBackoff d (fuel + 1) a)
  | 0, a, k => by
    unfold callLLMGo
    rw [h k]
    rfl
  | fuel + 1, a, k => by
    have ih := callLLMGo_fail d transport m h fuel (a + 1) (k + 1)
    unfold callLLMGo
    rw [h k]
    simp only [ih]
    rfl

theorem linBackoff_eq (d : ℚ) :
    ∀ fuel a, linBackoff d fuel a =
      (List.range (fuel - 1)).map (fun j : ℕ => d * ((a : ℚ) + (j : ℚ) + 1))
  | 0, a => by simp [linBackoff]
  | 1, a => by simp [linBackoff]
  | fuel + 2, a => by
    have ih := linBackoff_eq d (fuel + 1) (a + 1)
    unfold linBackoff
    rw [ih]
    have h21 : List.range (fuel + 2 - 1) = List.range (fuel + 1) := by norm_num
    rw [h21, List.range_succ_eq_map, List.map_cons, List.map_map]
    congr 1
    · push_cast
      ring
    · refine List.map_congr_left ?_
      intro j _
      simp only [Function.comp]
      push_cast
      ring

theorem expBackoff_eq (d : ℚ) :
    ∀ fuel a, expBackoff d fuel a =
      (List.range (fuel - 1)).map (fun j : ℕ => d * 2 ^ (a + j))
  | 0, a => by simp [expBackoff]
  | 1, a => by simp [expBackoff]
  | fuel + 2, a => by
    have ih := expBackoff_eq d (fuel + 1) (a + 1)
    unfold expBackoff
    rw [ih]
    have h21 : List.range (fuel + 2 - 1) = List.range (fuel + 1) := by norm_num
    rw [h21, List.range_succ_eq_map, List.map_cons, List.map_map]
    congr 1
    refine List.map_congr_left ?_
    intro j _
    simp only [Function.comp]
    have hj : a + 1 + j = a + (j + 1) := by omega
    rw [hj]

theorem callLLM_parse_fail_step (st : Settings)
    (transport : Nat → Except String String) (parse : String → Option Dict)
    (hN : 1 ≤ st.max_retries)
    (h : ∀ i, ∃ s, transport i = Except.ok s ∧ s ≠ "" ∧ parse s = none) :
    ∀ k, ∃ s, callLLM st transport k = (Except.ok s, 1, []) ∧ parse s = none := by
  intro k
  obtain ⟨s, hk, hs, hp⟩ := h k
  obtain ⟨n, hn⟩ : ∃ n, st.max_retries = n + 1 :=
    ⟨st.max_retries - 1, by omega⟩
  refine ⟨s, ?_, hp⟩
  have hstep : transportStep transport k = Except.ok s := by
    unfold transportStep
    rw [hk]
    simp [hs]
  unfold callLLM
  rw [hn]
  exact callLLMGo_ok _ _ _ _ _ _ hstep

theorem tAnalyzeGo_parse_fail (st : Settings)
    (transport : Nat → Except String String) (parse : String → Option Dict)
    (hN : 1 ≤ st.max_retries)
    (h : ∀ i, ∃ s, transport i = Except.ok s ∧ s ≠ "" ∧ parse s = none) :
    ∀ fuel a k, tAnalyzeGo st transport parse (fuel + 1) a k =
      (Except.error "Invalid JSON response from T-Agent", fuel + 1,
       expBackoff st.retry_delay (fuel + 1) a)
  | 0, a, k => by
    obtain ⟨s, hc, hp⟩ := callLLM_parse_fail_step st transport parse hN h k
    unfold tAnalyzeGo
    rw [hc]
    simp only [hp]
    rfl
  | fuel + 1, a, k => by
    obtain ⟨s, hc, hp⟩ := callLLM_parse_fail_step st transport parse hN h k
    have ih := tAnalyzeGo_parse_fail st transport parse hN h fuel (a + 1) (k + 1)
    unfold tAnalyzeGo
    rw [hc]
    simp only [hp, ih, List.nil_append]
    have hcnt : 1 + (fuel + 1) = fuel + 1 + 1 := by omega
    rw [hcnt]
    rfl

theorem tAnalyzeGo_transport_fail (st : Settings)
    (transport : Nat → Except String String) (parse : String → Option Dict)
    (m : String) (hN : 1 ≤ st.max_retries)
    (hstep : ∀ i, transportStep transport i = Except.error m) :
    ∀ fuel a k, tAnalyzeGo st transport parse (fuel + 1) a k =
      (Except.error m, (fuel + 1) * st.max_retries,
       stageTransportSleeps st.retry_delay st.max_retries (fuel + 1) a) := by
  obtain ⟨n, hn⟩ : ∃ n, st.max_retries = n + 1 :=
    ⟨st.max_retries - 1, by omega⟩
  have hcall : ∀ k, callLLM st transport k =
      (Except.error m, st.max_retries,
       linBackoff st.retry_delay st.max_retries 0) := by
    intro k
    unfold callLLM
    rw [hn]
    exact callLLMGo_fail _ _ _ hstep n 0 k
  intro fuel
  induction fuel with
  | zero =>
    intro a k
    unfold tAnalyzeGo
    rw [hcall k, Nat.one_mul]
    rfl
  | succ f ih =>
    intro a k
    unfold tAnalyzeGo
    rw [hcall k]
    simp only [ih (a + 1) (k + st.max_retries)]
    have hcnt : st.max_retries + (f + 1) * st.max_retries =
        (f + 1 + 1) * st.max_retries := by ring
    rw [hcnt]
    rfl

/-- C3 (amended): a Stage Agent with `max_retries = N ≥ 1` and base delay
`d` whose LLM capability always returns a *non-empty* syntactically
invalid JSON string performs exactly N attempts (one outbound LLM
invocation per attempt) and then fails with the ParseFailure error
`"Invalid JSON response from T-Agent"`; the list element at 0-based
index `j` is the backoff delay slept before attempt `j + 2`, and equals
`d * 2 ^ j` — i.e. `d * 2 ^ (k - 2)` before attempt `k` (1-indexed,
`k > 1`). -/
theorem stage_agent_parse_retry_bound (st : Settings)
    (transport : Nat → Except String String) (parse : String → Option Dict)
    (hN : 1 ≤ st.max_retries)
    (h : ∀ i, ∃ s, transport i = Except.ok s ∧ s ≠ "" ∧ parse s = none) :
    tAnalyze st transport parse =
      (Except.error "Invalid JSON response from T-Agent", st.max_retries,
       (List.range (st.max_retries - 1)).map
         (fun j : ℕ => st.retry_delay * 2 ^ j)) := by
  obtain ⟨n, hn⟩ : ∃ n, st.max_retries = n + 1 :=
    ⟨st.max_retries - 1, by omega⟩
  unfold tAnalyze
  rw [hn, tAnalyzeGo_parse_fail st transport parse hN h n 0 0,
    expBackoff_eq]
  simp

/-- Witness for C3 (amended): with the defaults N = 3, d = 1 and a
transport that always returns the non-empty non-JSON text `"not json"`,
the agent makes exactly 3 invocations, sleeps 1 then 2 seconds, and
fails with the ParseFailure error. -/
theorem stage_agent_parse_retry_bound_witness :
    (1 ≤ (3 : Nat))
    ∧ tAnalyze { max_retries := 3, retry_delay := 1 } garbageTransport
        rejectAllParse =
      (Except.error "Invalid JSON response from T-Agent", 3,
       (List.range 2).map (fun j : ℕ => (1 : ℚ) * 2 ^ j)) :=
  ⟨by decide,
   stage_agent_parse_retry_bound { max_retries := 3, retry_delay := 1 }
     garbageTransport rejectAllParse (by decide)
     (fun _ => ⟨"not json", rfl, by decide, rfl⟩)⟩

/-- C3 counterexample: the empty string is syntactically invalid JSON,
but a capability that always returns it is treated as an empty-response
transport failure inside `call_llm` (src/agents/base_agent.py lines
78-81): with N = 2 and d = 1 the agent performs 4 outbound invocations,
not 2, sleeps three times, and fails with the empty-response error
rather than a ParseFailure — refuting the claim for that input. -/
theorem stage_agent_parse_retry_bound_counterexample :
    (emptyTransport 0 = Except.ok "" ∧ rejectAllParse "" = none)
    ∧ tAnalyze { max_retries := 2, retry_delay := 1 } emptyTransport
        rejectAllParse =
      (Except.error "Empty response from Mistral API", 4, [1, 1, 1])
    ∧ (4 : Nat) ≠ 2
    ∧ "Empty response from Mistral API" ≠ "Invalid JSON response from T-Agent" := by
  refine ⟨⟨rfl, rfl⟩, ?_, by decide, by decide⟩
  have h := tAnalyzeGo_transport_fail { max_retries := 2, retry_delay := 1 }
    emptyTransport rejectAllParse "Empty response from Mistral API"
    (by norm_num) (fun i => rfl) 1 0 0
  have hsts : stageTransportSleeps (1 : ℚ) 2 (1 + 1) 0 = [1, 1, 1] := by
    show ((1 : ℚ) * ((0 : ℕ) + 1)) :: [] ++
        ((1 : ℚ) * 2 ^ 0) :: ((1 : ℚ) * ((0 : ℕ) + 1)) :: [] = [1, 1, 1]
    norm_num
  rw [show tAnalyze { max_retries := 2, retry_delay := 1 } emptyTransport
      rejectAllParse =
    tAnalyzeGo { max_retries := 2, retry_delay := 1 } emptyTransport
      rejectAllParse (1 + 1) 0 0 from rfl, h, hsts]
  norm_num

theorem stageTransportSleeps_two :
    stageTransportSleeps (1 : ℚ) 2 (1 + 1) 0 = [1, 1, 1] := by
  show ((1 : ℚ) * ((0 : ℕ) + 1)) :: [] ++
      ((1 : ℚ) * 2 ^ 0) :: ((1 : ℚ) * ((0 : ℕ) + 1)) :: [] = [1, 1, 1]
  norm_num

/-- C4 (amended): an always-failing transport is retried at *two* levels:
each of the N outer `analyze` attempts calls `call_llm`, which itself
performs N outbound invocations with a *linear* inner backoff
(`retry_delay * (attempt + 1)`, src/agents/base_agent.py line 89) — so
the agent performs N * N outbound LLM invocations in total, the outer
retries alone follow the exponential `d * 2 ^ (k - 2)` schedule, and the
transport error then propagates out of the Stage Agent. -/
theorem stage_agent_transport_retry (st : Settings)
    (transport : Nat → Except String String) (parse : String → Option Dict)
    (m : String) (hN : 1 ≤ st.max_retries)
    (h : ∀ i, transport i = Except.error m) :
    tAnalyze st transport parse =
      (Except.error m, st.max_retries * st.max_retries,
       stageTransportSleeps st.retry_delay st.max_retries st.max_retries 0)
    ∧ linBackoff st.retry_delay st.max_retries 0 =
        (List.range (st.max_retries - 1)).map
          (fun j : ℕ => st.retry_delay * ((j : ℚ) + 1)) := by
  constructor
  · obtain ⟨n, hn⟩ : ∃ n, st.max_retries = n + 1 :=
      ⟨st.max_retries - 1, by omega⟩
    have hstep : ∀ i, transportStep transport i = Except.error m := by
      intro i
      unfold transportStep
      rw [h i]
    unfold tAnalyze
    conv_lhs => rw [hn]
    rw [tAnalyzeGo_transport_fail st transport parse m hN hstep n 0 0, ← hn]
  · rw [linBackoff_eq]
    refine List.map_congr_left ?_
    intro j _
    push_cast
    ring

/-- Witness for C4 (amended): with N = 2, d = 1 and a transport whose
every call raises, the agent makes 2 * 2 = 4 outbound invocations and
propagates the transport error. -/
theorem stage_agent_transport_retry_witness :
    (1 ≤ (2 : Nat))
    ∧ (tAnalyze { max_retries := 2, retry_delay := 1 } downTransport
          rejectAllParse =
        (Except.error "connection refused", 2 * 2,
         stageTransportSleeps 1 2 2 0)
       ∧ linBackoff 1 2 0 =
          (List.range 1).map (fun j : ℕ => (1 : ℚ) * ((j : ℚ) + 1))) :=
  ⟨by decide,
   stage_agent_transport_retry { max_retries := 2, retry_delay := 1 }
     downTransport rejectAllParse "connection refused" (by decide)
     (fun _ => rfl)⟩

/-- C4 counterexample: with N = 2 and d = 1, an always-failing transport
causes 4 outbound invocations — not the claimed 2 — and the slept
schedule is [1, 1, 1] (inner linear sleep, outer exponential sleep,
inner linear sleep), not the claimed single exponential delay [1]. -/
theorem stage_agent_transport_retry_counterexample :
    tAnalyze { max_retries := 2, retry_delay := 1 } downTransport
        rejectAllParse =
      (Except.error "connection refused", 4, [1, 1, 1])
    ∧ (4 : Nat) ≠ 2
    ∧ [(1 : ℚ), 1, 1] ≠ [(1 : ℚ)] := by
  refine ⟨?_, by decide, by simp⟩
  have h := tAnalyzeGo_transport_fail { max_retries := 2, retry_delay := 1 }
    downTransport rejectAllParse "connection refused"
    (by norm_num) (fun i => rfl) 1 0 0
  rw [show tAnalyze { max_retries := 2, retry_delay := 1 } downTransport
      rejectAllParse =
    tAnalyzeGo { max_retries := 2, retry_delay := 1 } downTransport
      rejectAllParse (1 + 1) 0 0 from rfl, h, stageTransportSleeps_two]
  norm_num
